import Mathlib

/-!
# Verification of the Osmanli AI request-routing subsystem

A shallow embedding of the repository's core routing components:

* `ConversationMemory` (osmanli_ai/core/memory.py)
* the plugin / agent registries (osmanli_ai/utils/plugin_manager.py,
  osmanli_ai/core/agent_manager.py)
* the `RequestDispatcher` handler chain (osmanli_ai/core/dispatcher.py)
* the `CodeAgent` task processor (code_agent.py)

Python strings are modelled as Lean `String`s with explicit helper
functions mirroring the Python operations used by the source
(`in`, `.lower()`, `.split(sep)`, `.strip()`, `.capitalize()`,
`.replace(a, b)`, slicing).  Python exceptions are modelled with
`Except PyExn`; external collaborators (plugins, agents, the Neovim
bridge, the Quran knowledge base, the filesystem and subprocess) are
oracles supplied through an environment record, each returning
`Except PyExn` results so that a throwing collaborator is expressible.
-/

namespace Osmanli

/-! ## Python string primitives -/

/-- Is `n` a prefix of `h` (on character lists)? -/
def isPrefOf : List Char → List Char → Bool
  | [], _ => true
  | _ :: _, [] => false
  | a :: as, b :: bs => a == b && isPrefOf as bs

/-- Is `n` an infix of `h`?  Mirrors Python's `n in h` on strings. -/
def isInfOf (n : List Char) : List Char → Bool
  | [] => isPrefOf n []
  | c :: cs => isPrefOf n (c :: cs) || isInfOf n cs

/-- Python `needle in hay` for strings. -/
def pyIn (needle hay : String) : Bool :=
  isInfOf needle.data hay.data

/-- Python `s.lower()` (ASCII; all routed literals are ASCII). -/
def pyLower (s : String) : String :=
  ⟨s.data.map Char.toLower⟩

/-- Python `s.startswith(p)`. -/
def pyStartsWith (p s : String) : Bool :=
  isPrefOf p.data s.data

/-- Python `s.split(sep)` for a single-character separator, on lists.
The result is always non-empty. -/
def splitCharList (sep : Char) : List Char → List (List Char)
  | [] => [[]]
  | c :: cs =>
    match splitCharList sep cs with
    | [] => [[c]]
    | g :: gs => if c == sep then [] :: g :: gs else (c :: g) :: gs

/-- Python `s.split(sep)` for a one-character separator string. -/
def pySplitChar (sep : Char) (s : String) : List String :=
  (splitCharList sep s.data).map (fun l => ⟨l⟩)

/-- Characters removed by Python `str.strip()` (the ASCII whitespace). -/
def isPySpace (c : Char) : Bool :=
  c == ' ' || c == '\t' || c == '\n' || c == '\x0d' || c == '\x0b' || c == '\x0c'

/-- Python `s.strip()`. -/
def pyStrip (s : String) : String :=
  ⟨((s.data.dropWhile isPySpace).reverse.dropWhile isPySpace).reverse⟩

/-- Python `s.capitalize()`: first character upper-cased, rest lower-cased. -/
def pyCapitalize (s : String) : String :=
  match s.data with
  | [] => ""
  | c :: cs => ⟨c.toUpper :: cs.map Char.toLower⟩

/-- Python `s[:n]` for `n ≥ 0`. -/
def pyTake (n : Nat) (s : String) : String :=
  ⟨s.data.take n⟩

/-- Python `s.replace(pat, rep)` on character lists (`pat` non-empty;
the dispatcher only replaces the literal `"generate code"`). -/
def replaceL (pat rep : List Char) : List Char → List Char
  | [] => []
  | c :: cs =>
    if h : pat ≠ [] ∧ isPrefOf pat (c :: cs) then
      rep ++ replaceL pat rep ((c :: cs).drop pat.length)
    else
      c :: replaceL pat rep cs
termination_by l => l.length
decreasing_by
  · simp only [List.length_drop, List.length_cons]
    have : 1 ≤ pat.length := by
      cases pat with
      | nil => exact absurd rfl h.1
      | cons p ps => simp
    omega
  · simp

/-- Python `s.replace(pat, rep)`. -/
def pyReplace (s pat rep : String) : String :=
  ⟨replaceL pat.data rep.data s.data⟩

/-- Python `str(Path(p).parent)`: drop the last `/`-separated component. -/
def pathParent (p : String) : String :=
  let comps := splitCharList '/' p.data
  if comps.length ≤ 1 then "." else ⟨(List.intercalate ['/'] comps.dropLast)⟩

/-! ## Exceptions -/

/-- A Python exception value: either the repository's typed `AgentError`
or any other exception, identified by its message. -/
inductive PyExn where
  | agentError (msg : String)
  | exn (msg : String)
deriving Repr, DecidableEq

/-- Python `str(e)` on an exception. -/
def PyExn.msg : PyExn → String
  | .agentError m => m
  | .exn m => m

/-! ## ConversationMemory (osmanli_ai/core/memory.py) -/

/-- One entry of the conversation history (`timestamp` is the
`isoformat()` string stored by `add_message`). -/
structure Message where
  role : String
  content : String
  timestamp : String
deriving Repr, DecidableEq

/-- `ConversationMemory.__init__`: the history list and the bound.
`max_history_length` is a Python int, hence `Int`. -/
structure ConversationMemory where
  history : List Message
  maxHistoryLength : Int
deriving Repr, DecidableEq

/-- A fresh memory with the given bound (history starts empty). -/
def ConversationMemory.fresh (maxLen : Int) : ConversationMemory :=
  { history := [], maxHistoryLength := maxLen }

/-- `ConversationMemory.add_message`: append, then `pop(0)` when the
length exceeds the bound. -/
def addMessage (m : ConversationMemory) (role content timestamp : String) :
    ConversationMemory :=
  let h := m.history ++ [⟨role, content, timestamp⟩]
  if (h.length : Int) > m.maxHistoryLength then
    { m with history := h.drop 1 }
  else
    { m with history := h }

/-- Python `l[start:]` with a possibly negative `start` (clamped as the
interpreter does). -/
def pySliceFrom {α : Type} (l : List α) (start : Int) : List α :=
  if 0 ≤ start then l.drop start.toNat
  else l.drop (max 0 ((l.length : Int) + start)).toNat

/-- `ConversationMemory.get_history`: `-1` returns everything, any other
argument `n` yields the slice `history[-n:]`. -/
def getHistory (m : ConversationMemory) (numMessages : Int) : List Message :=
  if numMessages == -1 then m.history
  else pySliceFrom m.history (-numMessages)

/-- `ConversationMemory.get_full_context_text`: accumulate
`f"{role.capitalize()}: {content}\n"` over the selected history, then
`strip()` the result. -/
def getFullContextText (m : ConversationMemory) (numMessages : Int) : String :=
  pyStrip (String.join ((getHistory m numMessages).map
    (fun msg => pyCapitalize msg.role ++ ": " ++ msg.content ++ "\n")))

/-- `ConversationMemory.clear_history`. -/
def clearHistory (m : ConversationMemory) : ConversationMemory :=
  { m with history := [] }

/-! ## Dispatcher data model (osmanli_ai/core/dispatcher.py) -/

/-- Python dict lookup `d.get(k)` over an insertion-ordered mapping. -/
def dictGet {α : Type} (k : String) (d : List (String × α)) : Option α :=
  match d.find? (fun p => p.1 == k) with
  | some p => some p.2
  | none => none

/-- Python dict assignment `d[k] = v`: update in place if the key
exists, else append (insertion order preserved). -/
def dictInsert {α : Type} (k : String) (v : α) (d : List (String × α)) :
    List (String × α) :=
  if d.any (fun p => p.1 == k) then
    d.map (fun p => if p.1 == k then (k, v) else p)
  else d ++ [(k, v)]

/-- The context dict passed to `route`; only the keys the dispatcher
reads are modelled.  `none` = key absent, `some ""` = key present but
empty (both are falsy in the Python truthiness tests). -/
structure Ctx where
  code : Option String
  projectPath : Option String
  textToInsert : Option String
  nvimCommand : Option String
deriving Repr, DecidableEq

/-- Python truthiness of `dict.get(key)` for a string-valued key. -/
def truthy : Option String → Bool
  | some s => !(s == "")
  | none => false

/-- Python `x or default` for an optional string result. -/
def orDefault (o : Option String) (d : String) : String :=
  match o with
  | some s => if s == "" then d else s
  | none => d

/-- The context payload a plugin's `process` receives (the dispatcher
passes the user context, a `chat_history` pair list, or a
`conversation_history` text, depending on the plugin). -/
inductive PCtx where
  | user (c : Ctx)
  | chatHistory (pairs : List (String × String))
  | convHistory (text : String)

/-- A registered plugin: its metadata fields (used by `_list_plugins`)
and its `process` behavior, which may raise. -/
structure PluginB where
  pname : String
  version : String
  description : String
  capabilities : List String
  process : String → PCtx → Except PyExn String

/-- The task dict built by `_handle_agent_requests`
(`{"type": ..., "payload": {"code"/"prompt": ...}}`). -/
structure TaskT where
  type : String
  payloadCode : Option String
  payloadPrompt : Option String
deriving Repr, DecidableEq

/-- The result dict returned by an agent's `process_task`. -/
structure TaskResult where
  status : String
  result : Option String
  message : Option String
deriving Repr, DecidableEq

/-- A registered agent: `can_handle_query` predicate and `process_task`. -/
structure AgentB where
  canHandleQuery : String → Bool
  processTask : TaskT → Ctx → Except PyExn TaskResult

/-- Outcome of `subprocess.run(..., check=True)` in
`_run_basproject_tests` (success, `CalledProcessError`, or any other
exception — all three are caught by the source). -/
inductive CmdOutcome where
  | success (stdout stderr : String)
  | calledProcessError (emsg stdout stderr : String)
  | otherError (emsg : String)

/-- Outcome of the filesystem work of `_resolve_basproject_issues`
(lines 552–615): either an early-return error from `os.makedirs`, or
the accumulated per-step response messages.  Modelled as an external
effect — the directory/file manipulation is I/O. -/
inductive FsResolveOutcome where
  | earlyError (msg : String)
  | proceeded (msgs : List String)

/-- The Quran knowledge-base collaborator.  `body` models the
post-gate branches of `_handle_quran_requests` (chapter / verse /
search / recite / audio, lines 286–430) as a single external call:
they only consult `self.assistant.quran`, and no claim depends on
their internals.  The keyword gate and the not-loaded check are
embedded from source below. -/
structure QuranB where
  body : String → Except PyExn (Option String)

/-- The dispatcher's collaborators: the plugin registry, the agent
manager, the Neovim bridge, the Quran knowledge base, the project
reviewer, the filesystem/subprocess effects, and the clock. -/
structure Env where
  plugins : List (String × PluginB)
  agentManager : Option (List (String × AgentB))
  bridgeConnect : Except PyExn Bool
  bridgeGetBuffer : Except PyExn (Option String)
  bridgeInsertText : String → Except PyExn (Option String)
  bridgeExecuteCommand : String → Except PyExn (Option String)
  quran : Option QuranB
  conductProjectReview : String → Except PyExn String
  fsResolve : String → FsResolveOutcome
  runCommand : String → CmdOutcome
  currentTime : String

/-- The single-slot pending action (`self.assistant.pending_action`);
only the keys the confirmation handler reads are modelled, optional so
that a missing key (Python `KeyError`) is representable. -/
structure PendingAction where
  type : String
  projectPath : Option String
  command : Option String
deriving Repr, DecidableEq

/-- The mutable session state route touches: the pending-action slot,
the conversation memory, and the trace of shell commands executed via
`subprocess.run` (one entry per execution). -/
structure DState where
  pendingAction : Option PendingAction
  memory : ConversationMemory
  executed : List String
deriving Repr, DecidableEq

/-! ## Dispatcher stages -/

/-- The terminal fallback string of `route` (lines 121–125). -/
def fallbackMsg (q : String) : String :=
  "I am Osmanli AI. I'm still learning and improving my understanding. " ++
  "I received your query: '" ++ q ++ "'. Can you rephrase or ask for " ++
  "something specific?"

/-- The greeting responder of `_handle_internal_commands`. -/
def greetingMsg : String :=
  "Greetings, seeker of knowledge! How may I assist you today?"

/-- `_list_plugins`: one bullet per registered plugin, else the
no-plugins message. -/
def listPluginsMsg (plugins : List (String × PluginB)) : String :=
  let infos := plugins.map (fun p =>
    let caps :=
      if !p.2.capabilities.isEmpty then String.intercalate ", " p.2.capabilities
      else "None"
    "- **" ++ p.2.pname ++ "** (v" ++ p.2.version ++ "): " ++ p.2.description ++
      "\n  Capabilities: " ++ caps)
  if !infos.isEmpty then
    "I have the following plugins available:\n" ++ String.intercalate "\n" infos
  else "I currently have no plugins loaded. My capabilities are limited."

/-- `_handle_internal_commands` (plus the `_clear_chat` side effect):
the command table is iterated in insertion order, firing on the first
entry one of whose keywords occurs in the lowered query. -/
def handleInternalCommands (env : Env) (st : DState) (ql : String) :
    Option (String × DState) :=
  if pyIn "hello" ql || pyIn "hi" ql || pyIn "greetings" ql then
    some (greetingMsg, st)
  else if pyIn "how are you" ql then
    some ("I am an AI, so I don't experience feelings, but I am functioning optimally and ready to assist you!", st)
  else if pyIn "what is your name" ql then
    some ("I am Osmanli AI, your dedicated assistant.", st)
  else if pyIn "time" ql then
    some ("The current time is " ++ env.currentTime ++ ".", st)
  else if pyIn "clear chat" ql then
    some ("Conversation history cleared. Ready for a fresh start!",
      { st with memory := clearHistory st.memory })
  else if pyIn "list plugins" ql || pyIn "what can you do" ql then
    some (listPluginsMsg env.plugins, st)
  else none

/-- The keyword gate of `_handle_neovim_requests`. -/
def neovimGate (ql : String) : Bool :=
  pyIn "neovim" ql || pyIn "nvim" ql || pyIn "code" ql || pyIn "editor" ql ||
  pyIn "buffer" ql || pyIn "insert text" ql || pyIn "execute command" ql

/-- `_get_neovim_buffer`. -/
def getNeovimBuffer (env : Env) : Except PyExn String :=
  env.bridgeGetBuffer.map (fun r =>
    "Neovim reports:\n```\n" ++
      orDefault r "No content or error getting content." ++ "\n```")

/-- `_insert_neovim_text`. -/
def insertNeovimText (env : Env) (ctx : Ctx) : Except PyExn String :=
  if !truthy ctx.textToInsert then .ok "No text provided to insert."
  else
    (env.bridgeInsertText (ctx.textToInsert.getD "")).map (fun r =>
      "Neovim: Inserted text. Result: " ++
        orDefault r "No specific response from Neovim.")

/-- `_execute_neovim_command`. -/
def executeNeovimCommand (env : Env) (ctx : Ctx) : Except PyExn String :=
  if !truthy ctx.nvimCommand then .ok "No Neovim command provided to execute."
  else
    (env.bridgeExecuteCommand (ctx.nvimCommand.getD "")).map (fun r =>
      "Neovim: Executed '" ++ ctx.nvimCommand.getD "" ++ "'. Result: " ++
        orDefault r "No specific response from Neovim.")

/-- `_run_copilot`. -/
def runCopilot (env : Env) (q : String) (ctx : Ctx) : Except PyExn String :=
  match dictGet "CopilotPlugin" env.plugins with
  | some p => p.process q (.user ctx)
  | none => .ok "The Copilot plugin is not available. Cannot assist with code generation."

/-- `_handle_neovim_requests`. -/
def handleNeovimRequests (env : Env) (ql q : String) (ctx : Ctx) :
    Except PyExn (Option String) :=
  if !neovimGate ql then .ok none
  else
    match env.bridgeConnect with
    | .error e => .error e
    | .ok false => .ok (some "I'm unable to connect to the Neovim bridge. Please ensure the Neovim bridge server is running.")
    | .ok true =>
      if pyIn "get current code" ql || pyIn "read buffer" ql then
        (getNeovimBuffer env).map some
      else if pyIn "insert text" ql then (insertNeovimText env ctx).map some
      else if pyIn "execute nvim command" ql then
        (executeNeovimCommand env ctx).map some
      else if pyIn "copilot" ql then (runCopilot env q ctx).map some
      else .ok (some "I can interact with Neovim. What specifically about code or the editor would you like to do? (e.g., 'get current code', 'generate code', 'execute command')")

/-- The keyword gate of `_handle_project_requests`. -/
def projectGate (ql : String) : Bool :=
  pyIn "review project" ql || pyIn "analyze code" ql || pyIn "project structure" ql

/-- `_handle_project_requests`. -/
def handleProjectRequests (env : Env) (ql : String) (ctx : Ctx) :
    Except PyExn (Option String) :=
  if projectGate ql then
    if truthy ctx.projectPath then
      (env.conductProjectReview (ctx.projectPath.getD "")).map some
    else .ok (some "To review a project, please tell me the path or use the 'Review Project' button in the GUI to select one.")
  else .ok none

/-- The keyword gate of `_handle_quran_requests`. -/
def quranGate (ql : String) : Bool :=
  pyIn "quran" ql || pyIn "surah" ql || pyIn "verse" ql || pyIn "recite" ql ||
  pyIn "play quran" ql

/-- `_handle_quran_requests`: gate, not-loaded check, then the external
knowledge-base branches (see `QuranB`). -/
def handleQuranRequests (env : Env) (ql : String) : Except PyExn (Option String) :=
  if !quranGate ql then .ok none
  else
    match env.quran with
    | none => .ok (some "Quran knowledge base is not loaded or enabled in configuration.")
    | some qb => qb.body ql

/-- The keyword condition of `_handle_stock_requests` (lines 540–546). -/
def stockGate (ql : String) : Bool :=
  pyIn "price of" ql || pyIn "overview of" ql || pyIn "stock" ql ||
  pyIn "monitor" ql || pyIn "finance" ql || pyIn "market" ql

/-- `_handle_stock_requests`: note that the source checks the plugin's
presence BEFORE the keyword gate, so a missing plugin yields the
unavailable message for every query reaching this stage. -/
def handleStockRequests (env : Env) (ql q : String) (ctx : Ctx) :
    Except PyExn (Option String) :=
  match dictGet "StockMonitorPlugin" env.plugins with
  | none => .ok (some "The Stock Monitor plugin is not available.")
  | some p =>
    if stockGate ql then (p.process q (.user ctx)).map some
    else .ok none

/-- The shell command composed by `_run_basproject_tests`:
`f"cd {Path(command.split(" ")[1]).parent} && {command}"`. -/
def fullCmd (p1 cmd : String) : String :=
  "cd " ++ pathParent p1 ++ " && " ++ cmd

/-- The response string `_run_basproject_tests` builds from the
subprocess outcome (all three subprocess outcomes are caught). -/
def cmdOutputMsg : CmdOutcome → String
  | .success out err =>
    "Command output:\nSTDOUT:\n" ++ out ++ "\nSTDERR:\n" ++ err
  | .calledProcessError em out err =>
    "Error running command: " ++ em ++ "\nSTDOUT:\n" ++ out ++ "\nSTDERR:\n" ++ err
  | .otherError em =>
    "An unexpected error occurred while running the command: " ++ em

/-- `_run_basproject_tests`: extract the project path from the stored
command (`command.split(" ")[1]`, an uncaught `IndexError` when absent),
run the composed shell command exactly once (recorded in the `executed`
trace), and format the outcome. -/
def runBasprojectTests (env : Env) (st : DState) (cmd : String) :
    Except PyExn (String × DState) :=
  match (pySplitChar ' ' cmd).get? 1 with
  | none => .error (.exn "IndexError: list index out of range")
  | some p1 =>
    .ok (cmdOutputMsg (env.runCommand (fullCmd p1 cmd)),
         { st with executed := st.executed ++ [fullCmd p1 cmd] })

/-- `_resolve_basproject_issues`: the filesystem work is the external
`fsResolve` effect; on completion the two closing messages are appended
and a `run_basproject_tests` pending action is installed. -/
def resolveBasprojectIssues (env : Env) (st : DState) (projectPath : String) :
    String × DState :=
  match env.fsResolve projectPath with
  | .earlyError msg => (msg, st)
  | .proceeded msgs =>
    let testCmd := "python " ++ projectPath ++ "/test_runner.py"
    let allMsgs := msgs ++
      ["Basproject issues resolved. You can now run the tests.",
       "Would you like me to run '" ++ testCmd ++ "' for you?"]
    let pa : PendingAction := ⟨"run_basproject_tests", none, some testCmd⟩
    (String.intercalate "\n" allMsgs, { st with pendingAction := some pa })

/-- `_handle_confirmation_requests`: with a pending action, "yes"
dispatches on the stored type (clearing the slot before acting); an
unknown type falls through WITHOUT clearing; "no" clears and cancels;
anything else falls through. -/
def handleConfirmationRequests (env : Env) (st : DState) (ql : String) :
    Except PyExn (Option (String × DState)) :=
  match st.pendingAction with
  | none => .ok none
  | some pa =>
    if ql == "yes" then
      if pa.type == "resolve_basproject_issues" then
        match pa.projectPath with
        | none => .error (.exn "KeyError: 'project_path'")
        | some pp =>
          .ok (some (resolveBasprojectIssues env { st with pendingAction := none } pp))
      else if pa.type == "run_basproject_tests" then
        match pa.command with
        | none => .error (.exn "KeyError: 'command'")
        | some cmd =>
          (runBasprojectTests env { st with pendingAction := none } cmd).map some
      else .ok none
    else if ql == "no" then
      .ok (some ("Action cancelled.", { st with pendingAction := none }))
    else .ok none

/-- The agent iteration of `_handle_agent_requests`: first agent whose
`can_handle_query(query)` holds receives the constructed task; the
duplicate dead `elif "generate"` branch of the source is unreachable
and not modelled. -/
def agentLoop (ql q : String) (ctx : Ctx) :
    List (String × AgentB) → Except PyExn (Option String)
  | [] => .ok none
  | (_, a) :: rest =>
    if a.canHandleQuery q then
      if pyIn "analyze" ql then
        let code := ctx.code.getD ""
        if !(code == "") then
          match a.processTask ⟨"analyze_code", some code, none⟩ ctx with
          | .error e => .error e
          | .ok r => .ok (some ("Code Agent: " ++ r.result.getD "Analysis failed."))
        else .ok (some "Please provide the code to analyze in the context.")
      else if pyIn "generate" ql then
        let prompt := pyStrip (pyReplace q "generate code" "")
        if !(prompt == "") then
          match a.processTask ⟨"generate_code", none, some prompt⟩ ctx with
          | .error e => .error e
          | .ok r => .ok (some ("Code Agent: " ++ r.result.getD "Code generation failed."))
        else .ok (some "Please provide a prompt for code generation.")
      else agentLoop ql q ctx rest
    else agentLoop ql q ctx rest

/-- `_handle_agent_requests`: declines when no agent manager is set. -/
def handleAgentRequests (env : Env) (ql q : String) (ctx : Ctx) :
    Except PyExn (Option String) :=
  match env.agentManager with
  | none => .ok none
  | some agents => agentLoop ql q ctx agents

/-- The user/assistant pairing loop of `route` (lines 92–99): a dangling
user turn is carried forward, an assistant turn without a preceding
user turn is skipped. -/
def pairUp : List Message → Option String → List (String × String)
  | [], _ => []
  | m :: rest, pu =>
    if m.role == "user" then pairUp rest (some m.content)
    else if m.role == "assistant" then
      match pu with
      | some u => (u, m.content) :: pairUp rest none
      | none => pairUp rest none
    else pairUp rest pu

/-- Chain one dispatcher stage: an exception propagates, a produced
string ends routing with the state unchanged, `None` falls through. -/
def stageThen (r : Except PyExn (Option String)) (st : DState)
    (k : Unit → Except PyExn (String × DState)) :
    Except PyExn (String × DState) :=
  match r with
  | .error e => .error e
  | .ok (some s) => .ok (s, st)
  | .ok none => k ()

/-- The fallback tail of `route` (lines 81–125): conversational plugin,
web search, capability-gated general LLM, then the canned terminal
reply. -/
def fallbackChain (env : Env) (st : DState) (q : String) (ctx : Ctx) :
    Except PyExn (String × DState) :=
  match dictGet "HuggingFaceConversationalPlugin" env.plugins with
  | some p =>
    (p.process q (.chatHistory (pairUp (getHistory st.memory 5) none))).map
      (fun s => (s, st))
  | none =>
    match dictGet "WebSearchPlugin" env.plugins with
    | some p => (p.process q (.user ctx)).map (fun s => (s, st))
    | none =>
      match dictGet "GeneralLLM" env.plugins with
      | some p =>
        if p.capabilities.contains "general_conversation" then
          (p.process q (.convHistory (getFullContextText st.memory 5))).map
            (fun s => (s, st))
        else .ok (fallbackMsg q, st)
      | none => .ok (fallbackMsg q, st)

/-- `RequestDispatcher.route` on a query without a `;` separator: the
stage chain of lines 46–125 in source order. -/
def routeSingle (env : Env) (st : DState) (q : String) (ctx : Ctx) :
    Except PyExn (String × DState) :=
  let ql := pyLower q
  match handleInternalCommands env st ql with
  | some r => .ok r
  | none =>
    stageThen (handleNeovimRequests env ql q ctx) st fun _ =>
    stageThen (handleProjectRequests env ql ctx) st fun _ =>
    (match handleConfirmationRequests env st ql with
     | .error e => .error e
     | .ok (some r) => .ok r
     | .ok none =>
       stageThen (handleQuranRequests env ql) st fun _ =>
       stageThen (handleStockRequests env ql q ctx) st fun _ =>
       stageThen (handleAgentRequests env ql q ctx) st fun _ =>
       fallbackChain env st q ctx)

/-- The multilink loop of `route` (lines 35–44): route each stripped
non-empty link in order, threading the session state, and join the
collected responses with newlines.  Each link of `query.split(";")`
contains no `;`, so the recursive `route(link, context)` call of the
source runs the single-query chain. -/
def routeSegs (env : Env) (ctx : Ctx) :
    List String → DState → List String → Except PyExn (String × DState)
  | [], st, acc => .ok (String.intercalate "\n" acc.reverse, st)
  | l :: ls, st, acc =>
    match routeSingle env st l ctx with
    | .error e => .error e
    | .ok (r, st') => routeSegs env ctx ls st' (r :: acc)

/-- The stripped non-empty links of a multilink query. -/
def routeLinks (q : String) : List String :=
  ((pySplitChar ';' q).map pyStrip).filter (fun l => !(l == ""))

/-- `RequestDispatcher.route`. -/
def route (env : Env) (st : DState) (q : String) (ctx : Ctx) :
    Except PyExn (String × DState) :=
  if pyIn ";" q then routeSegs env ctx (routeLinks q) st []
  else routeSingle env st q ctx

/-- Routing a list of queries one after the other (each "as if
submitted alone"), collecting the responses; used to state the
multilink property. -/
def routeEach (env : Env) (ctx : Ctx) :
    List String → DState → Except PyExn (List String × DState)
  | [], st => .ok ([], st)
  | l :: ls, st =>
    match route env st l ctx with
    | .error e => .error e
    | .ok (r, st') =>
      match routeEach env ctx ls st' with
      | .error e => .error e
      | .ok (rs, st'') => .ok (r :: rs, st'')

/-! ## Component registries
(osmanli_ai/utils/plugin_manager.py, osmanli_ai/core/agent_manager.py)

The directory scan is modelled as a list of candidate files, each
carrying the outcome of `_load_single_plugin` / `_load_single_agent`
for that file: an exception (import/constructor failure), no matching
class, or an instance.  An instance carries the outcomes of its
`initialize()` / `shutdown()` hooks, which are external component
code. -/

/-- One candidate file of a registry scan and what loading it yields. -/
structure UnitFile (α : Type) where
  fileName : String
  loadResult : Except PyExn (Option α)

/-- A plugin instance as the manager sees it: its metadata name, whether
it has an `initialize` attribute, and what calling `initialize()` does. -/
structure PluginInst where
  name : String
  hasInitHook : Bool
  initResult : Except PyExn Unit

/-- `PluginManager`: the name → instance mapping. -/
structure PluginManagerS where
  plugins : List (String × PluginInst)
deriving Inhabited

/-- An agent instance as the manager sees it: its metadata name and the
outcomes of its `initialize()` and `shutdown()` hooks. -/
structure AgentInst where
  name : String
  initResult : Except PyExn Unit
  shutdownResult : Except PyExn Unit

/-- `AgentManager`: the name → instance mapping. -/
structure AgentManagerS where
  agents : List (String × AgentInst)
deriving Inhabited

/-- The file filter of `PluginManager.load_plugins` (skips dotfiles,
`_`-prefixed files, `__init__.py` and `base.py`; the excluded-path
check is a filesystem concern outside the model). -/
def pluginSkip (name : String) : Bool :=
  pyStartsWith "_" name || pyStartsWith "." name ||
  name == "__init__.py" || name == "base.py"

/-- The file filter of `AgentManager.load_agents` (no `base.py` skip). -/
def agentSkip (name : String) : Bool :=
  pyStartsWith "_" name || pyStartsWith "." name || name == "__init__.py"

/-- `PluginManager._initialize_and_register`: its internal try/except
catches an initialization failure (logged, not registered, NOT
re-raised); a plugin without an `initialize` attribute is logged and
skipped. -/
def initAndRegisterPlugin (m : PluginManagerS) (p : PluginInst) : PluginManagerS :=
  if p.hasInitHook then
    match p.initResult with
    | .ok _ => { plugins := dictInsert p.name p m.plugins }
    | .error _ => m
  else m

/-- `PluginManager.load_plugins`: the per-file try/except catches any
load failure and continues the scan, so the whole scan never raises. -/
def loadPlugins : List (UnitFile PluginInst) → PluginManagerS →
    Except PyExn PluginManagerS
  | [], m => .ok m
  | u :: us, m =>
    if pluginSkip u.fileName then loadPlugins us m
    else
      match u.loadResult with
      | .error _ => loadPlugins us m
      | .ok none => loadPlugins us m
      | .ok (some p) => loadPlugins us (initAndRegisterPlugin m p)

/-- `AgentManager.load_agents`: a load failure is logged and re-raised
as `AgentError`; an initialization failure raises `AgentError` inside
`_initialize_and_register`, which the per-file except catches and
wraps in a second `AgentError`. -/
def loadAgents : List (UnitFile AgentInst) → AgentManagerS →
    Except PyExn AgentManagerS
  | [], m => .ok m
  | u :: us, m =>
    if agentSkip u.fileName then loadAgents us m
    else
      match u.loadResult with
      | .error e =>
        .error (.agentError ("Agent loading failed for " ++ u.fileName ++ ": " ++ e.msg))
      | .ok none => loadAgents us m
      | .ok (some a) =>
        match a.initResult with
        | .error e =>
          .error (.agentError ("Agent loading failed for " ++ u.fileName ++ ": " ++
            "Failed to initialize agent " ++ a.name ++ ": " ++ e.msg))
        | .ok _ => loadAgents us { agents := dictInsert a.name a m.agents }

/-- `PluginManager.get_plugin`. -/
def getPluginInst (m : PluginManagerS) (n : String) : Option PluginInst :=
  dictGet n m.plugins

/-- `AgentManager.get_agent`. -/
def getAgentInst (m : AgentManagerS) (n : String) : Option AgentInst :=
  dictGet n m.agents

/-- `PluginManager.shutdown` is `pass`: the manager is untouched. -/
def pluginManagerShutdown (m : PluginManagerS) : PluginManagerS := m

/-- The loop of `AgentManager.shutdown`: call each agent's shutdown
hook in registry order; the first failure is re-raised as `AgentError`. -/
def agentShutdownLoop : List (String × AgentInst) → Except PyExn Unit
  | [] => .ok ()
  | (n, a) :: rest =>
    match a.shutdownResult with
    | .error e =>
      .error (.agentError ("Error shutting down agent " ++ n ++ ": " ++ e.msg))
    | .ok _ => agentShutdownLoop rest

/-- `AgentManager.shutdown`: the loop only invokes hooks and logs — it
never assigns to `self.agents`, so the mapping is returned unchanged. -/
def agentManagerShutdown (m : AgentManagerS) : Except PyExn AgentManagerS :=
  match agentShutdownLoop m.agents with
  | .error e => .error e
  | .ok _ => .ok m

/-! ## CodeAgent (code_agent.py) -/

/-- `CodeAgent._analyze_code` (the `code[:50]` slice included). -/
def analyzeCodeResult (code : String) : String :=
  "Analysis of code: '" ++ pyTake 50 code ++
  "...' completed. Found potential improvements."

/-- `CodeAgent._generate_code`. -/
def generateCodeResult (prompt : String) : String :=
  "Generated code based on prompt: '" ++ pyTake 50 prompt ++ "...'\n\n" ++
  "# Example generated code\ndef hello_world():\n    print(\"Hello, World!\")"

/-- `CodeAgent.process_task`: dispatch on the task type; a missing or
empty payload entry yields an explicit error result. -/
def codeAgentProcessTask (task : TaskT) (_ctx : Ctx) : Except PyExn TaskResult :=
  if task.type == "analyze_code" then
    if truthy task.payloadCode then
      .ok ⟨"success", some (analyzeCodeResult (task.payloadCode.getD "")), none⟩
    else .ok ⟨"error", none, some "No code provided for analysis."⟩
  else if task.type == "generate_code" then
    if truthy task.payloadPrompt then
      .ok ⟨"success", some (generateCodeResult (task.payloadPrompt.getD "")), none⟩
    else .ok ⟨"error", none, some "No prompt provided for code generation."⟩
  else .ok ⟨"error", none, some ("Unknown code task type: " ++ task.type)⟩

/-! ## Concrete fixtures -/

/-- An empty request context. -/
def ctx0 : Ctx := ⟨none, none, none, none⟩

/-- A request context carrying code to analyze. -/
def ctxCode : Ctx := ⟨some "print('hello')", none, none, none⟩

/-- A fresh session state (default memory bound 50, nothing pending,
nothing executed). -/
def st0 : DState := ⟨none, ConversationMemory.fresh 50, []⟩

/-- A benign stock-monitor plugin. -/
def stockPluginB : PluginB :=
  ⟨"StockMonitorPlugin", "1.0.0", "Stock monitor.", ["finance"],
   fun _ _ => .ok "stock response"⟩

/-- An environment with no collaborators at all. -/
def envEmpty : Env where
  plugins := []
  agentManager := none
  bridgeConnect := .ok false
  bridgeGetBuffer := .ok none
  bridgeInsertText := fun _ => .ok none
  bridgeExecuteCommand := fun _ => .ok none
  quran := none
  conductProjectReview := fun _ => .ok "review"
  fsResolve := fun _ => .proceeded []
  runCommand := fun _ => .success "" ""
  currentTime := "12:00:00"

/-- An environment whose only plugin is the stock monitor (so the
stock stage can decline and routing can reach the later stages). -/
def envBase : Env := { envEmpty with plugins := [("StockMonitorPlugin", stockPluginB)] }

/-- A conversational plugin whose `process` raises `e`. -/
def convThrow (e : PyExn) : PluginB :=
  ⟨"HuggingFaceConversationalPlugin", "1.0.0", "Conversational AI.", [],
   fun _ _ => .error e⟩

/-- `envBase` plus a throwing conversational plugin. -/
def envConvThrow (e : PyExn) : Env :=
  { envEmpty with plugins :=
      [("StockMonitorPlugin", stockPluginB),
       ("HuggingFaceConversationalPlugin", convThrow e)] }

/-- The dummy agent of the claims: handles exactly the queries
containing "dummy", processes tasks like the repository's `CodeAgent`. -/
def dummyAgent : AgentB := ⟨fun q => pyIn "dummy" q, codeAgentProcessTask⟩

/-- `envBase` plus a registered dummy agent. -/
def envAgent : Env := { envBase with agentManager := some [("DummyAgent", dummyAgent)] }

/-- `envBase` with a chosen subprocess behavior. -/
def envRun (rc : String → CmdOutcome) : Env := { envBase with runCommand := rc }

/-- A query is *plain* when it contains no `;` and none of the keyword
triggers of the internal-command, Neovim, project, Quran and stock
stages (so every gated stage declines on it). -/
def plainQuery (q : String) : Prop :=
  pyIn ";" q = false ∧
  pyIn "hello" (pyLower q) = false ∧ pyIn "hi" (pyLower q) = false ∧
  pyIn "greetings" (pyLower q) = false ∧
  pyIn "how are you" (pyLower q) = false ∧
  pyIn "what is your name" (pyLower q) = false ∧
  pyIn "time" (pyLower q) = false ∧ pyIn "clear chat" (pyLower q) = false ∧
  pyIn "list plugins" (pyLower q) = false ∧
  pyIn "what can you do" (pyLower q) = false ∧
  neovimGate (pyLower q) = false ∧ projectGate (pyLower q) = false ∧
  quranGate (pyLower q) = false ∧ stockGate (pyLower q) = false

instance (q : String) : Decidable (plainQuery q) := by
  unfold plainQuery; infer_instance

/-! ## Helper lemmas -/

@[simp] theorem stageThen_error (e : PyExn) (st : DState)
    (k : Unit → Except PyExn (String × DState)) :
    stageThen (.error e) st k = .error e := rfl

@[simp] theorem stageThen_some (s : String) (st : DState)
    (k : Unit → Except PyExn (String × DState)) :
    stageThen (.ok (some s)) st k = .ok (s, st) := rfl

@[simp] theorem stageThen_none (st : DState)
    (k : Unit → Except PyExn (String × DState)) :
    stageThen (.ok none) st k = k () := rfl

theorem route_of_no_semicolon (env : Env) (st : DState) (q : String) (ctx : Ctx)
    (h : pyIn ";" q = false) : route env st q ctx = routeSingle env st q ctx := by
  simp [route, h]

theorem handleInternalCommands_none (env : Env) (st : DState) (ql : String)
    (hHello : pyIn "hello" ql = false) (hHi : pyIn "hi" ql = false)
    (hGreet : pyIn "greetings" ql = false) (hHow : pyIn "how are you" ql = false)
    (hName : pyIn "what is your name" ql = false) (hTime : pyIn "time" ql = false)
    (hClear : pyIn "clear chat" ql = false) (hList : pyIn "list plugins" ql = false)
    (hWhat : pyIn "what can you do" ql = false) :
    handleInternalCommands env st ql = none := by
  simp [handleInternalCommands, hHello, hHi, hGreet, hHow, hName, hTime, hClear,
    hList, hWhat]

theorem handleNeovimRequests_gate_false (env : Env) (ql q : String) (ctx : Ctx)
    (h : neovimGate ql = false) : handleNeovimRequests env ql q ctx = .ok none := by
  simp [handleNeovimRequests, h]

theorem handleProjectRequests_gate_false (env : Env) (ql : String) (ctx : Ctx)
    (h : projectGate ql = false) : handleProjectRequests env ql ctx = .ok none := by
  simp [handleProjectRequests, h]

theorem handleConfirmationRequests_none (env : Env) (st : DState) (ql : String)
    (h : st.pendingAction = none) : handleConfirmationRequests env st ql = .ok none := by
  simp [handleConfirmationRequests, h]

theorem handleQuranRequests_gate_false (env : Env) (ql : String)
    (h : quranGate ql = false) : handleQuranRequests env ql = .ok none := by
  simp [handleQuranRequests, h]

theorem handleStockRequests_declines (env : Env) (ql q : String) (ctx : Ctx)
    (p : PluginB) (hp : dictGet "StockMonitorPlugin" env.plugins = some p)
    (hg : stockGate ql = false) : handleStockRequests env ql q ctx = .ok none := by
  simp [handleStockRequests, hp, hg]

theorem handleAgentRequests_no_manager (env : Env) (ql q : String) (ctx : Ctx)
    (h : env.agentManager = none) : handleAgentRequests env ql q ctx = .ok none := by
  simp [handleAgentRequests, h]

/-- On a plain query with nothing pending, every stage before the
fallback chain declines, provided a stock plugin is registered and no
agent manager is set. -/
theorem routeSingle_plain (env : Env) (st : DState) (q : String) (ctx : Ctx)
    (p : PluginB) (hq : plainQuery q) (hp : st.pendingAction = none)
    (hstock : dictGet "StockMonitorPlugin" env.plugins = some p)
    (hagents : env.agentManager = none) :
    routeSingle env st q ctx = fallbackChain env st q ctx := by
  obtain ⟨-, hHello, hHi, hGreet, hHow, hName, hTime, hClear, hList, hWhat,
    hNvim, hProj, hQuran, hStock⟩ := hq
  simp only [routeSingle,
    handleInternalCommands_none env st (pyLower q) hHello hHi hGreet hHow hName
      hTime hClear hList hWhat,
    handleNeovimRequests_gate_false env (pyLower q) q ctx hNvim,
    handleProjectRequests_gate_false env (pyLower q) ctx hProj,
    handleConfirmationRequests_none env st (pyLower q) hp,
    handleQuranRequests_gate_false env (pyLower q) hQuran,
    handleStockRequests_declines env (pyLower q) q ctx p hstock hStock,
    handleAgentRequests_no_manager env (pyLower q) q ctx hagents,
    stageThen_none]

/-! ## Claim theorems -/

/-- C1: the spec claims the stock stage declines on every query without
a finance keyword regardless of plugin registration, the "unavailable"
message appearing only for finance-keyword queries without a finance
plugin.  The code checks the plugin's presence BEFORE the keyword gate:
with no `StockMonitorPlugin` registered, the keyword-free query
"tell me a joke" is answered with the unavailable message, and the
agent/conversational/LLM fallback stages are never consulted. -/
theorem stock_stage_unavailable_blocks_non_finance_query :
    stockGate (pyLower "tell me a joke") = false ∧
    route envEmpty st0 "tell me a joke" ctx0 =
      .ok ("The Stock Monitor plugin is not available.", st0) :=
  ⟨by decide, rfl⟩

/-- C2 counterexample: with the pending action exactly as the claim
writes it — type `"run_tests"` — the input "yes" matches neither
branch of the confirmation handler: nothing is executed, the slot is
NOT cleared, and routing falls through to the terminal fallback. -/
theorem run_tests_pending_yes_not_executed :
    route envBase
      ⟨some ⟨"run_tests", none, some "python /tmp/proj/test_runner.py"⟩,
       ConversationMemory.fresh 50, []⟩ "yes" ctx0 =
    .ok (fallbackMsg "yes",
      ⟨some ⟨"run_tests", none, some "python /tmp/proj/test_runner.py"⟩,
       ConversationMemory.fresh 50, []⟩) := rfl

/-- C3 counterexample: routing "analyze this dummy code" never reaches
the agent stage — the internal-command stage fires first because the
greeting keyword "hi" is a substring of "this" — so the response is the
greeting, which does not contain "Analysis of code". -/
theorem route_analyze_dummy_code_greets :
    route envAgent st0 "analyze this dummy code" ctxCode = .ok (greetingMsg, st0) ∧
    pyIn "Analysis of code" greetingMsg = false :=
  ⟨rfl, by decide⟩

/-- C3 amended: the agent-delegation stage itself (the
dispatcher-delegated call), given "analyze this dummy code" and code in
the context, builds the task `{"type": "analyze_code", "payload":
{"code": ...}}` for the dummy agent and returns a response containing
"Analysis of code"; with no code in the context it returns the explicit
error message instead. -/
theorem agent_stage_analyze_dummy_delegation :
    codeAgentProcessTask ⟨"analyze_code", some "print('hello')", none⟩ ctxCode =
      .ok ⟨"success", some (analyzeCodeResult "print('hello')"), none⟩ ∧
    handleAgentRequests envAgent (pyLower "analyze this dummy code")
        "analyze this dummy code" ctxCode =
      .ok (some ("Code Agent: " ++ analyzeCodeResult "print('hello')")) ∧
    pyIn "Analysis of code" ("Code Agent: " ++ analyzeCodeResult "print('hello')") = true ∧
    handleAgentRequests envAgent (pyLower "analyze this dummy code")
        "analyze this dummy code" ctx0 =
      .ok (some "Please provide the code to analyze in the context.") :=
  ⟨rfl, rfl, by decide, rfl⟩

theorem handleConfirmationRequests_no (env : Env) (st : DState) (pa : PendingAction)
    (hpend : st.pendingAction = some pa) :
    handleConfirmationRequests env st "no" =
      .ok (some ("Action cancelled.", { st with pendingAction := none })) := by
  simp only [handleConfirmationRequests, hpend]
  rfl

theorem handleConfirmationRequests_yes_run (env : Env) (st : DState) (c : String)
    (hpend : st.pendingAction = some ⟨"run_basproject_tests", none, some c⟩) :
    handleConfirmationRequests env st "yes" =
      (runBasprojectTests env { st with pendingAction := none } c).map some := by
  simp only [handleConfirmationRequests, hpend]
  rfl

theorem runBasprojectTests_eq (env : Env) (st : DState) (c p1 : String)
    (hs : (pySplitChar ' ' c).get? 1 = some p1) :
    runBasprojectTests env st c =
      .ok (cmdOutputMsg (env.runCommand (fullCmd p1 c)),
           { st with executed := st.executed ++ [fullCmd p1 c] }) := by
  simp only [runBasprojectTests, hs]

/-- C2 amended: the pending-action type used by the code is
`"run_basproject_tests"` (not `"run_tests"`).  With such a pending
action set, routing "no" clears the slot and returns the cancellation
message with no command executed, and routing "yes" executes the stored
command exactly once (one new entry in the execution trace) and clears
the slot. -/
theorem run_basproject_tests_confirmation (rc : String → CmdOutcome)
    (c p1 : String) (st : DState) (ctx : Ctx)
    (hpend : st.pendingAction = some ⟨"run_basproject_tests", none, some c⟩)
    (hsplit : (pySplitChar ' ' c).get? 1 = some p1) :
    route (envRun rc) st "no" ctx =
      .ok ("Action cancelled.", { st with pendingAction := none }) ∧
    route (envRun rc) st "yes" ctx =
      .ok (cmdOutputMsg (rc (fullCmd p1 c)),
           { st with pendingAction := none,
                     executed := st.executed ++ [fullCmd p1 c] }) := by
  constructor
  · rw [route_of_no_semicolon _ _ _ _ (by decide)]
    have h1 : handleInternalCommands (envRun rc) st "no" = none := rfl
    have h2 : handleNeovimRequests (envRun rc) "no" "no" ctx = .ok none := rfl
    have h3 : handleProjectRequests (envRun rc) "no" ctx = .ok none := rfl
    simp only [routeSingle, show pyLower "no" = "no" from by decide, h1, h2, h3,
      stageThen_none, handleConfirmationRequests_no (envRun rc) st _ hpend]
  · rw [route_of_no_semicolon _ _ _ _ (by decide)]
    have h1 : handleInternalCommands (envRun rc) st "yes" = none := rfl
    have h2 : handleNeovimRequests (envRun rc) "yes" "yes" ctx = .ok none := rfl
    have h3 : handleProjectRequests (envRun rc) "yes" ctx = .ok none := rfl
    simp only [routeSingle, show pyLower "yes" = "yes" from by decide, h1, h2, h3,
      stageThen_none, handleConfirmationRequests_yes_run (envRun rc) st c hpend,
      runBasprojectTests_eq (envRun rc) _ c p1 hsplit]
    rfl

/-- Witness for the C2 amended theorem at a concrete command. -/
theorem run_basproject_tests_confirmation_witness :
    (pySplitChar ' ' "python /tmp/proj/test_runner.py").get? 1 =
      some "/tmp/proj/test_runner.py" ∧
    (route (envRun (fun _ => .success "ok" ""))
        ⟨some ⟨"run_basproject_tests", none, some "python /tmp/proj/test_runner.py"⟩,
         ConversationMemory.fresh 50, []⟩ "no" ctx0 =
      .ok ("Action cancelled.",
        ⟨none, ConversationMemory.fresh 50, []⟩) ∧
     route (envRun (fun _ => .success "ok" ""))
        ⟨some ⟨"run_basproject_tests", none, some "python /tmp/proj/test_runner.py"⟩,
         ConversationMemory.fresh 50, []⟩ "yes" ctx0 =
      .ok (cmdOutputMsg (.success "ok" ""),
        ⟨none, ConversationMemory.fresh 50,
         ["cd /tmp/proj && python /tmp/proj/test_runner.py"]⟩)) := by
  refine ⟨by decide, ?_⟩
  have h := run_basproject_tests_confirmation (fun _ => .success "ok" "")
    "python /tmp/proj/test_runner.py" "/tmp/proj/test_runner.py"
    ⟨some ⟨"run_basproject_tests", none, some "python /tmp/proj/test_runner.py"⟩,
     ConversationMemory.fresh 50, []⟩ ctx0 rfl (by decide)
  exact h

/-- C4 counterexample: `route` wraps no stage in a try/except — a
conversational plugin that raises makes the whole call raise instead of
being treated as declined. -/
theorem route_propagates_handler_exception :
    route (envConvThrow (.exn "conversational crashed")) st0 "tell me a joke" ctx0 =
      .error (.exn "conversational crashed") := rfl

/-- C4 amended: when every stage declines without raising, `route`
returns the canned terminal fallback string; but a stage that raises
propagates its exception to the caller uncaught. -/
theorem route_plain_query_fallback_and_propagation (q : String) (st : DState)
    (ctx : Ctx) (e : PyExn) (hq : plainQuery q)
    (hp : st.pendingAction = none) :
    route envBase st q ctx = .ok (fallbackMsg q, st) ∧
    route (envConvThrow e) st q ctx = .error e := by
  have hsemi : pyIn ";" q = false := hq.1
  refine ⟨?_, ?_⟩
  · rw [route_of_no_semicolon envBase st q ctx hsemi,
      routeSingle_plain envBase st q ctx stockPluginB hq hp rfl rfl]
    rfl
  · rw [route_of_no_semicolon (envConvThrow e) st q ctx hsemi,
      routeSingle_plain (envConvThrow e) st q ctx stockPluginB hq hp rfl rfl]
    rfl

/-- Witness for the C4 amended theorem at the query "tell me a joke". -/
theorem route_plain_query_fallback_and_propagation_witness :
    plainQuery "tell me a joke" ∧
    (route envBase st0 "tell me a joke" ctx0 =
        .ok (fallbackMsg "tell me a joke", st0) ∧
     route (envConvThrow (.exn "boom")) st0 "tell me a joke" ctx0 =
        .error (.exn "boom")) :=
  ⟨by decide,
   route_plain_query_fallback_and_propagation "tell me a joke" st0 ctx0
     (.exn "boom") (by decide) rfl⟩

/-! ### Conversation-memory claims -/

/-- Adding a list of messages one by one through `add_message`. -/
def foldAdd (msgs : List Message) (m : ConversationMemory) : ConversationMemory :=
  msgs.foldl (fun mm x => addMessage mm x.role x.content x.timestamp) m

theorem drop_append_drop {α : Type} (l t : List α) (d s : Nat) (h : d ≤ l.length) :
    (l.drop d ++ t).drop s = (l ++ t).drop (d + s) := by
  rw [← List.drop_append_of_le_length h, List.drop_drop, Nat.add_comm]

/-- The history after folding `add_message` over a message list is the
suffix of the concatenated stream that fits in the bound. -/
theorem foldAdd_history (N : Nat) (msgs : List Message) :
    ∀ m : ConversationMemory, m.maxHistoryLength = (N : Int) →
      m.history.length ≤ N →
      (foldAdd msgs m).history =
        (m.history ++ msgs).drop (m.history.length + msgs.length - N) := by
  induction msgs with
  | nil =>
    intro m hmax hlen
    simp only [foldAdd, List.foldl_nil, List.append_nil, List.length_nil,
      Nat.add_zero]
    have h0 : m.history.length - N = 0 := by omega
    rw [h0, List.drop_zero]
  | cons x xs ih =>
    intro m hmax hlen
    have hx : (⟨x.role, x.content, x.timestamp⟩ : Message) = x := rfl
    have hhist1 : (addMessage m x.role x.content x.timestamp).history =
        (m.history ++ [x]).drop (m.history.length + 1 - N) := by
      simp only [addMessage, hx]
      by_cases hc : N < m.history.length + 1
      · have hcond : ((m.history ++ [x]).length : Int) > m.maxHistoryLength := by
          rw [hmax]; simp only [List.length_append, List.length_cons,
            List.length_nil]
          push_cast
          omega
        rw [if_pos hcond]
        have h1 : m.history.length + 1 - N = 1 := by omega
        rw [h1]
      · have hcond : ¬ ((m.history ++ [x]).length : Int) > m.maxHistoryLength := by
          rw [hmax]; simp only [List.length_append, List.length_cons,
            List.length_nil]
          push_cast
          omega
        rw [if_neg hcond]
        have h0 : m.history.length + 1 - N = 0 := by omega
        rw [h0, List.drop_zero]
    have hmax1 : (addMessage m x.role x.content x.timestamp).maxHistoryLength =
        (N : Int) := by
      simp only [addMessage]
      split <;> exact hmax
    have hlen1 : (addMessage m x.role x.content x.timestamp).history.length ≤ N := by
      rw [hhist1]
      simp only [List.length_drop, List.length_append, List.length_cons,
        List.length_nil]
      omega
    have hfold : foldAdd (x :: xs) m =
        foldAdd xs (addMessage m x.role x.content x.timestamp) := by
      simp [foldAdd]
    rw [hfold, ih _ hmax1 hlen1, hhist1]
    have hdle : m.history.length + 1 - N ≤ (m.history ++ [x]).length := by
      simp only [List.length_append, List.length_cons, List.length_nil]
      omega
    rw [drop_append_drop _ _ _ _ hdle]
    have harr : (m.history ++ [x]) ++ xs = m.history ++ x :: xs := by
      simp
    rw [harr]
    congr 1
    simp only [List.length_drop, List.length_append, List.length_cons,
      List.length_nil]
    omega

/-- C6: with bound `N ≥ 1`, after adding `N + k` messages to a fresh
memory, `get_history()` (the `-1` default) returns exactly the last `N`
messages in insertion order — each `add_message` appends and evicts the
single oldest entry once the length exceeds `N`. -/
theorem memory_bounded_fifo_last_n (N k : Nat) (hN : 1 ≤ N)
    (msgs : List Message) (hlen : msgs.length = N + k) :
    getHistory (foldAdd msgs (ConversationMemory.fresh (N : Int))) (-1) =
      msgs.drop k := by
  have h := foldAdd_history N msgs (ConversationMemory.fresh (N : Int)) rfl
    (by simp [ConversationMemory.fresh])
  simp only [ConversationMemory.fresh, List.nil_append, List.length_nil,
    Nat.zero_add, hlen] at h
  have hk : N + k - N = k := by omega
  rw [hk] at h
  simp only [getHistory]
  rw [if_pos (by rfl)]
  exact h

/-- Witness for C6 at `N = 2`, `k = 1`. -/
theorem memory_bounded_fifo_last_n_witness :
    1 ≤ 2 ∧
    ([⟨"user", "a", "t1"⟩, ⟨"user", "b", "t2"⟩, ⟨"user", "c", "t3"⟩] :
      List Message).length = 2 + 1 ∧
    getHistory (foldAdd [⟨"user", "a", "t1"⟩, ⟨"user", "b", "t2"⟩,
        ⟨"user", "c", "t3"⟩] (ConversationMemory.fresh 2)) (-1) =
      [⟨"user", "b", "t2"⟩, ⟨"user", "c", "t3"⟩] :=
  ⟨by decide, by decide,
   memory_bounded_fifo_last_n 2 1 (by decide) _ (by decide)⟩

/-- C7: after adding user "Hello" then assistant "Hi there!",
`get_full_context_text(2)` is exactly
`"User: Hello\nAssistant: Hi there!"` — capitalized role, colon-space,
newline-joined, no trailing newline. -/
theorem full_context_text_two_messages (ts1 ts2 : String) :
    getFullContextText
      (addMessage (addMessage (ConversationMemory.fresh 50) "user" "Hello" ts1)
        "assistant" "Hi there!" ts2) 2 = "User: Hello\nAssistant: Hi there!" := by
  have h1 : addMessage (ConversationMemory.fresh 50) "user" "Hello" ts1 =
      ⟨[⟨"user", "Hello", ts1⟩], 50⟩ := rfl
  have h2 : addMessage (⟨[⟨"user", "Hello", ts1⟩], 50⟩ : ConversationMemory)
      "assistant" "Hi there!" ts2 =
      ⟨[⟨"user", "Hello", ts1⟩, ⟨"assistant", "Hi there!", ts2⟩], 50⟩ := rfl
  rw [h1, h2]
  rfl

/-- C10: `get_history(0)` returns the whole history, not zero messages:
only `-1` is the "all" sentinel, and `0` falls through to the slice
`history[-0:]`, which is the full list. -/
theorem get_history_zero_returns_all (m : ConversationMemory) :
    getHistory m 0 = m.history := rfl

/-! ### Registry claims -/

theorem loadPlugins_never_raises :
    ∀ (us : List (UnitFile PluginInst)) (m : PluginManagerS),
      ∃ r, loadPlugins us m = .ok r := by
  intro us
  induction us with
  | nil => intro m; exact ⟨m, rfl⟩
  | cons u us ih =>
    intro m
    rw [loadPlugins]
    split
    · exact ih m
    · split
      · exact ih m
      · exact ih m
      · exact ih _

theorem loadPlugins_error_skipped (f : String) (e : PyExn)
    (hf : pluginSkip f = false) :
    ∀ (us₁ us₂ : List (UnitFile PluginInst)) (m : PluginManagerS),
      loadPlugins (us₁ ++ ⟨f, .error e⟩ :: us₂) m = loadPlugins (us₁ ++ us₂) m := by
  intro us₁
  induction us₁ with
  | nil => intro us₂ m; simp [loadPlugins, hf]
  | cons u us₁ ih =>
    intro us₂ m
    simp only [List.cons_append, loadPlugins]
    split
    · exact ih us₂ m
    · split
      · exact ih us₂ m
      · exact ih us₂ m
      · exact ih us₂ _

/-- C8: a file failing to load during the plugin scan is caught and
skipped — the scan result is as if the file were absent, and the scan
always returns (never raises); whereas the agent scan re-raises the
first load failure as a typed `AgentError` after logging. -/
theorem load_failure_policy_plugins_vs_agents
    (us₁ us₂ : List (UnitFile PluginInst)) (m : PluginManagerS)
    (f : String) (e : PyExn) (hf : pluginSkip f = false)
    (aus : List (UnitFile AgentInst)) (am : AgentManagerS)
    (af : String) (ae : PyExn) (haf : agentSkip af = false) :
    loadPlugins (us₁ ++ ⟨f, .error e⟩ :: us₂) m = loadPlugins (us₁ ++ us₂) m ∧
    (∃ r, loadPlugins (us₁ ++ ⟨f, .error e⟩ :: us₂) m = .ok r) ∧
    loadAgents (⟨af, .error ae⟩ :: aus) am =
      .error (.agentError ("Agent loading failed for " ++ af ++ ": " ++ ae.msg)) := by
  refine ⟨loadPlugins_error_skipped f e hf us₁ us₂ m,
    loadPlugins_never_raises _ m, ?_⟩
  simp [loadAgents, haf]

/-- Witness for C8: one well-formed plugin plus one broken file — the
broken file is skipped, the well-formed one is registered, and the
agent scan raises on its broken file. -/
theorem load_failure_policy_witness :
    pluginSkip "broken.py" = false ∧ agentSkip "bad_agent.py" = false ∧
    loadPlugins [⟨"good.py", .ok (some ⟨"Good", true, .ok ()⟩)⟩,
        ⟨"broken.py", .error (.exn "SyntaxError")⟩] ⟨[]⟩ =
      .ok ⟨[("Good", ⟨"Good", true, .ok ()⟩)]⟩ ∧
    (loadPlugins [⟨"good.py", .ok (some ⟨"Good", true, .ok ()⟩)⟩,
        ⟨"broken.py", .error (.exn "SyntaxError")⟩] ⟨[]⟩ =
      loadPlugins [⟨"good.py", .ok (some ⟨"Good", true, .ok ()⟩)⟩] ⟨[]⟩ ∧
     (∃ r, loadPlugins [⟨"good.py", .ok (some ⟨"Good", true, .ok ()⟩)⟩,
        ⟨"broken.py", .error (.exn "SyntaxError")⟩] ⟨[]⟩ = .ok r) ∧
     loadAgents [⟨"bad_agent.py", .error (.exn "ImportError")⟩] ⟨[]⟩ =
      .error (.agentError
        ("Agent loading failed for " ++ "bad_agent.py" ++ ": " ++
          (PyExn.exn "ImportError").msg))) := by
  refine ⟨by decide, by decide, rfl, ?_⟩
  exact load_failure_policy_plugins_vs_agents
    [⟨"good.py", .ok (some ⟨"Good", true, .ok ()⟩)⟩] [] ⟨[]⟩
    "broken.py" (.exn "SyntaxError") (by decide)
    [] ⟨[]⟩ "bad_agent.py" (.exn "ImportError") (by decide)

/-- C9: a completed `shutdown()` never deregisters — `get` after
shutdown returns the same instances for every name, for both managers
(`AgentManager.shutdown` only invokes hooks; `PluginManager.shutdown`
is a no-op). -/
theorem shutdown_preserves_registry (am am' : AgentManagerS) (n : String)
    (pm : PluginManagerS) (n' : String)
    (h : agentManagerShutdown am = .ok am') :
    getAgentInst am' n = getAgentInst am n ∧
    getPluginInst (pluginManagerShutdown pm) n' = getPluginInst pm n' := by
  have ham : am' = am := by
    unfold agentManagerShutdown at h
    cases hsl : agentShutdownLoop am.agents with
    | error e => rw [hsl] at h; exact absurd h (by simp)
    | ok u =>
      rw [hsl] at h
      injection h with h2
      exact h2.symm
  rw [ham]
  exact ⟨rfl, rfl⟩

/-- Witness for C9 with a one-agent registry whose shutdown hook
succeeds. -/
theorem shutdown_preserves_registry_witness :
    agentManagerShutdown ⟨[("A1", ⟨"A1", .ok (), .ok ()⟩)]⟩ =
      .ok ⟨[("A1", ⟨"A1", .ok (), .ok ()⟩)]⟩ ∧
    (getAgentInst ⟨[("A1", ⟨"A1", .ok (), .ok ()⟩)]⟩ "A1" =
        getAgentInst ⟨[("A1", ⟨"A1", .ok (), .ok ()⟩)]⟩ "A1" ∧
     getPluginInst (pluginManagerShutdown ⟨[]⟩) "P1" =
        getPluginInst ⟨[]⟩ "P1") :=
  ⟨rfl, shutdown_preserves_registry _ _ "A1" ⟨[]⟩ "P1" rfl⟩

/-! ### Multilink split (C5) -/

theorem splitCharList_ne_nil (sep : Char) (l : List Char) :
    splitCharList sep l ≠ [] := by
  cases l with
  | nil => simp [splitCharList]
  | cons c cs =>
    rw [splitCharList]
    split
    · simp
    · split <;> simp

theorem splitCharList_no_sep (sep : Char) :
    ∀ (l : List Char), ∀ g ∈ splitCharList sep l, sep ∉ g := by
  intro l
  induction l with
  | nil =>
    intro g hg
    simp [splitCharList] at hg
    simp [hg]
  | cons c cs ih =>
    intro g hg
    cases hr : splitCharList sep cs with
    | nil => exact absurd hr (splitCharList_ne_nil sep cs)
    | cons g0 gs =>
      have hsplit : splitCharList sep (c :: cs) =
          (if c == sep then [] :: g0 :: gs else (c :: g0) :: gs) := by
        rw [splitCharList, hr]
      rw [hsplit] at hg
      by_cases hcs : (c == sep) = true
      · rw [if_pos hcs] at hg
        rcases List.mem_cons.mp hg with hge | hgm
        · simp [hge]
        · exact ih g (hr ▸ hgm)
      · rw [if_neg hcs] at hg
        rcases List.mem_cons.mp hg with hge | hgm
        · subst hge
          intro hmem
          rcases List.mem_cons.mp hmem with hsep | hsep
          · exact hcs (by simp [hsep])
          · exact ih g0 (hr ▸ List.mem_cons_self g0 gs) hsep
        · exact ih g (hr ▸ List.mem_cons_of_mem g0 hgm)

theorem mem_pyStrip (s : String) (x : Char) (h : x ∈ (pyStrip s).data) :
    x ∈ s.data := by
  simp only [pyStrip] at h
  rw [List.mem_reverse] at h
  have h1 := (List.dropWhile_suffix isPySpace).sublist.subset h
  rw [List.mem_reverse] at h1
  exact (List.dropWhile_suffix isPySpace).sublist.subset h1

theorem isInfOf_singleton_false (c : Char) :
    ∀ (l : List Char), c ∉ l → isInfOf [c] l = false := by
  intro l
  induction l with
  | nil => intro _; rfl
  | cons x xs ih =>
    intro h
    have hne : (c == x) = false := by
      simp only [beq_eq_false_iff_ne, ne_eq]
      intro hc
      exact h (hc ▸ List.mem_cons_self x xs)
    rw [isInfOf, isPrefOf, hne]
    simp only [Bool.false_and, Bool.false_or]
    exact ih (fun hm => h (List.mem_cons_of_mem x hm))

theorem routeLinks_no_semicolon (q : String) :
    ∀ l ∈ routeLinks q, pyIn ";" l = false := by
  intro l hl
  simp only [routeLinks, List.mem_filter] at hl
  obtain ⟨hmem, -⟩ := hl
  simp only [pySplitChar, List.map_map, List.mem_map] at hmem
  obtain ⟨g, hg, hrfl⟩ := hmem
  have hnosep : (';' : Char) ∉ g := splitCharList_no_sep ';' q.data g hg
  have hsub : (';' : Char) ∉ l.data := by
    intro hsemi
    have : l = pyStrip ⟨g⟩ := hrfl.symm
    rw [this] at hsemi
    exact hnosep (mem_pyStrip ⟨g⟩ ';' hsemi)
  exact isInfOf_singleton_false ';' l.data hsub

theorem routeSegs_eq_routeEach (env : Env) (ctx : Ctx) :
    ∀ (ls : List String), (∀ l ∈ ls, pyIn ";" l = false) →
      ∀ (st : DState) (acc : List String),
        routeSegs env ctx ls st acc =
          (routeEach env ctx ls st).map
            (fun rs => (String.intercalate "\n" (acc.reverse ++ rs.1), rs.2)) := by
  intro ls
  induction ls with
  | nil =>
    intro _ st acc
    simp [routeSegs, routeEach, Except.map]
  | cons l ls ih =>
    intro h st acc
    have hl : pyIn ";" l = false := h l (List.mem_cons_self l ls)
    have hls : ∀ x ∈ ls, pyIn ";" x = false :=
      fun x hx => h x (List.mem_cons_of_mem l hx)
    simp only [routeSegs, routeEach, route_of_no_semicolon env st l ctx hl]
    cases hrs : routeSingle env st l ctx with
    | error e => simp [Except.map]
    | ok rst =>
      obtain ⟨r, st'⟩ := rst
      dsimp only
      rw [ih hls st' (r :: acc)]
      cases hre : routeEach env ctx ls st' with
      | error e => simp [Except.map]
      | ok rs2 =>
        obtain ⟨rs, st''⟩ := rs2
        simp [Except.map, List.reverse_cons, List.append_assoc]

/-- C5: a query containing `;` is split on `;`; each stripped non-empty
segment is routed independently in original order (as if submitted
alone, threading the session state), and the responses are joined with
newlines. -/
theorem multilink_split_routes_segments (env : Env) (st : DState) (q : String)
    (ctx : Ctx) (h : pyIn ";" q = true) :
    route env st q ctx =
      (routeEach env ctx (routeLinks q) st).map
        (fun rs => (String.intercalate "\n" rs.1, rs.2)) := by
  have hroute : route env st q ctx = routeSegs env ctx (routeLinks q) st [] := by
    simp [route, h]
  rw [hroute,
    routeSegs_eq_routeEach env ctx (routeLinks q) (routeLinks_no_semicolon q) st []]
  simp

/-- Witness for C5 at "hello; what is your name" (two segments, two
responses joined by one newline). -/
theorem multilink_split_routes_segments_witness :
    pyIn ";" "hello; what is your name" = true ∧
    routeLinks "hello; what is your name" = ["hello", "what is your name"] ∧
    route envBase st0 "hello; what is your name" ctx0 =
      .ok ("Greetings, seeker of knowledge! How may I assist you today?\nI am Osmanli AI, your dedicated assistant.", st0) ∧
    route envBase st0 "hello; what is your name" ctx0 =
      (routeEach envBase ctx0 (routeLinks "hello; what is your name") st0).map
        (fun rs => (String.intercalate "\n" rs.1, rs.2)) :=
  ⟨by decide, by decide, rfl,
   multilink_split_routes_segments envBase st0 "hello; what is your name" ctx0
     (by decide)⟩

end Osmanli
